import Mathlib

/-!
Verification development for the robudst driver-station protocol engine.

The Rust sources are shallowly embedded: bytes are Nat values below 256,
byte buffers are lists of Nat, fallible code (assertion failures, index
out of bounds, unwrap of None) is modelled with Option or a dedicated
result type whose panicked constructor marks a Rust panic.
-/

/-- Robot lifecycle state, from src/lib.rs (RobotStatus). -/
inductive RobotStatus where
  | NoCommunication
  | NoRobotCode
  | EStopped
  | BrownedOut
  | Disabled
  | Enabled
  deriving DecidableEq, Repr, Fintype

/-- Robot code mode, from src/lib.rs (RobotCodeMode). -/
inductive RobotCodeMode where
  | Autonomous
  | Teleop
  | Test
  deriving DecidableEq, Repr, Fintype

/-- Alliance position, from src/lib.rs (AlliancePos). The station byte is a u8. -/
inductive AlliancePos where
  | Red (pos : Nat)
  | Blue (pos : Nat)
  deriving DecidableEq, Repr

/-- The contains test of the bitflags crate: all bits of flag are set in bits. -/
def flagContains (bits flag : Nat) : Bool := bits &&& flag == flag

namespace Status

/-- Status flag ESTOP = 0b1000_0000. -/
def ESTOP : Nat := 0x80
/-- Status flag BROWNOUT = 0b0001_0000. -/
def BROWNOUT : Nat := 0x10
/-- Status flag CODE_START = 0b0000_1000. -/
def CODE_START : Nat := 0x08
/-- Status flag ENABLED = 0b0000_0100. -/
def ENABLED : Nat := 0x04
/-- Status mode flag TELEOP = 0b00. -/
def TELEOP : Nat := 0x00
/-- Status mode flag TEST = 0b01. -/
def TEST : Nat := 0x01
/-- Status mode flag AUTO = 0b10. -/
def AUTO : Nat := 0x02

/-- Union of all bits named in the Status bitflags block; from_bits accepts
exactly the bytes contained in this mask. -/
def MASK : Nat := 0x9F

def is_enabled (b : Nat) : Bool := flagContains b ENABLED
def is_browned_out (b : Nat) : Bool := flagContains b BROWNOUT
def is_estopped (b : Nat) : Bool := flagContains b ESTOP
def is_in_teleop (b : Nat) : Bool := flagContains b TELEOP
def is_in_auto (b : Nat) : Bool := flagContains b AUTO
def is_in_test (b : Nat) : Bool := flagContains b TEST

/-- Status::from_bits, as used with unwrap in the UDP parser: succeeds exactly
when no unknown bit is set. -/
def from_bits (b : Nat) : Option Nat :=
  if b &&& MASK == b then some b else none

end Status

namespace Trace

/-- Trace flag ROBOT_CODE = 0b0010_0000. -/
def ROBOT_CODE : Nat := 0x20
/-- Union of all bits named in the Trace bitflags block. -/
def MASK : Nat := 0x3F

def has_robot_code (b : Nat) : Bool := flagContains b ROBOT_CODE

/-- Trace::from_bits, as used with unwrap in the UDP parser. -/
def from_bits (b : Nat) : Option Nat :=
  if b &&& MASK == b then some b else none

end Trace

/-- find_status from src/utils.rs. The leading assert and the panic arm of
the mode chain are modelled by returning none. -/
def find_status (status trace : Nat) : Option (RobotStatus × RobotCodeMode) :=
  if !(((Status.is_in_teleop status).xor (Status.is_in_auto status)).xor
        (Status.is_in_test status)) then
    none
  else
    let mode? : Option RobotCodeMode :=
      if Status.is_in_teleop status then some RobotCodeMode.Teleop
      else if Status.is_in_auto status then some RobotCodeMode.Autonomous
      else if Status.is_in_test status then some RobotCodeMode.Test
      else none
    match mode? with
    | none => none
    | some mode =>
      if !(Trace.has_robot_code trace) then some (RobotStatus.NoRobotCode, mode)
      else if Status.is_estopped status then some (RobotStatus.EStopped, mode)
      else if Status.is_browned_out status then some (RobotStatus.BrownedOut, mode)
      else if Status.is_enabled status then some (RobotStatus.Enabled, mode)
      else some (RobotStatus.Disabled, mode)

/-- AlliancePos::to_pos from src/lib.rs. The assert on the station number is
modelled by none; saturating_sub on u8 coincides with Nat subtraction here. -/
def AlliancePos.to_pos : AlliancePos → Option Nat
  | AlliancePos.Red pos =>
      if pos != 0 && pos <= 3 then some (pos - 1) else none
  | AlliancePos.Blue pos =>
      if pos != 0 && pos <= 3 then some (pos - 4) else none

namespace Control

/-- Control flag ESTOP = 0b1000_0000. -/
def ESTOP : Nat := 0x80
/-- Control flag FMS_CONNECTED = 0b0000_1000. -/
def FMS_CONNECTED : Nat := 0x08
/-- Control flag ENABLED = 0b0000_0100. -/
def ENABLED : Nat := 0x04
/-- Control mode flag TELEOP = 0b00. -/
def TELEOP : Nat := 0x00
/-- Control mode flag AUTO = 0b10. -/
def AUTO : Nat := 0x02
/-- Control mode flag TEST = 0b01. -/
def TEST : Nat := 0x01

end Control

/-- The control byte computed by UdpOutgoingPacket::build in
src/proto/outgoing/udp.rs: starts empty, ors in ESTOP or ENABLED from the
lifecycle state, then ors in the mode flag. -/
def controlOf (st : RobotStatus) (m : RobotCodeMode) : Nat :=
  let c : Nat := 0
  let c : Nat :=
    match st with
    | RobotStatus.EStopped => c ||| Control.ESTOP
    | RobotStatus.Enabled => c ||| Control.ENABLED
    | _ => c
  match m with
  | RobotCodeMode.Teleop => c ||| Control.TELEOP
  | RobotCodeMode.Autonomous => c ||| Control.AUTO
  | RobotCodeMode.Test => c ||| Control.TEST

/-- Spec-side re-derivation of the two-bit mode field of a control byte
(00 teleop, 10 auto, 01 test). -/
def decodeMode (b : Nat) : Option RobotCodeMode :=
  match b &&& 0x03 with
  | 0 => some RobotCodeMode.Teleop
  | 2 => some RobotCodeMode.Autonomous
  | 1 => some RobotCodeMode.Test
  | _ => none

/-- The packed button bytes of the outgoing joystick tag
(UdpOutgoingTag::write in src/proto/outgoing/udp.rs): chunks of exactly 8
buttons, and per chunk the byte is built by or-ing in the button then
shifting left once, on a u8. -/
def packButtons (buttons : List Bool) : List Nat :=
  (buttons.toChunks 8).filterMap (fun chunk =>
    if chunk.length == 8 then
      some (chunk.foldl (fun byte b =>
        ((byte ||| (if b then 1 else 0)) <<< 1) % 256) 0)
    else
      none)

/-- Rust slice indexing with an explicit range: some only when the range lies
within the list (Rust panics otherwise). -/
def slice? (l : List Nat) (a b : Nat) : Option (List Nat) :=
  if a <= b && b <= l.length then some ((l.drop a).take (b - a)) else none

/-- Big-endian u16 from two bytes. -/
def u16be (hi lo : Nat) : Nat := hi * 256 + lo

/-- Big-endian u32 (also used for the raw bit pattern of a big-endian f32). -/
def u32be (a b c d : Nat) : Nat := ((a * 256 + b) * 256 + c) * 256 + d

/-- Little-endian u32. -/
def u32le (a b c d : Nat) : Nat := ((d * 256 + c) * 256 + b) * 256 + a

/-- One structured incoming UDP datagram, from src/proto/incoming/udp.rs
(UdpIncomingPacket). The battery voltage (b5 + b6) / 256.0 is represented
exactly by its numerator b5 + b6. -/
structure UdpIncomingPacket where
  seqnum : Nat
  status : Nat
  trace : Nat
  batteryNum : Nat
  need_date : Bool
  deriving DecidableEq, Repr

/-- Joystick-output echo tag payload (incoming UDP tag 0x01); the 32-bit
outputs field is little-endian in the source. -/
structure JoystickOutput where
  outputs : Nat
  left_rumble : Nat
  right_rumble : Nat
  deriving DecidableEq, Repr

def JoystickOutput.parse (buf : List Nat) : Option JoystickOutput :=
  match buf.get? 0, buf.get? 1, buf.get? 2, buf.get? 3,
        buf.get? 4, buf.get? 5, buf.get? 6, buf.get? 7 with
  | some b0, some b1, some b2, some b3, some b4, some b5, some b6, some b7 =>
    some { outputs := u32le b0 b1 b2 b3
           left_rumble := u16be b4 b5
           right_rumble := u16be b6 b7 }
  | _, _, _, _, _, _, _, _ => none

/-- CPU stats tag payload (incoming UDP tag 0x05); the five f32 fields are
kept as raw big-endian bit patterns. -/
structure CpuInfo where
  num_of_cpus : Nat
  cpu_time_critical : Nat
  cpu_above_normal : Nat
  cpu_normal : Nat
  cpu_low : Nat
  deriving DecidableEq, Repr

def CpuInfo.parse (buf : List Nat) : Option CpuInfo :=
  match buf.get? 0, buf.get? 1, buf.get? 2, buf.get? 3,
        buf.get? 4, buf.get? 5, buf.get? 6, buf.get? 7,
        buf.get? 8, buf.get? 9, buf.get? 10, buf.get? 11 with
  | some a0, some a1, some a2, some a3, some b0, some b1, some b2, some b3,
    some c0, some c1, some c2, some c3 =>
    match buf.get? 12, buf.get? 13, buf.get? 14, buf.get? 15,
          buf.get? 16, buf.get? 17, buf.get? 18, buf.get? 19 with
    | some d0, some d1, some d2, some d3, some e0, some e1, some e2, some e3 =>
      some { num_of_cpus := u32be a0 a1 a2 a3
             cpu_time_critical := u32be b0 b1 b2 b3
             cpu_above_normal := u32be c0 c1 c2 c3
             cpu_normal := u32be d0 d1 d2 d3
             cpu_low := u32be e0 e1 e2 e3 }
    | _, _, _, _, _, _, _, _ => none
  | _, _, _, _, _, _, _, _, _, _, _, _ => none

/-- RAM stats tag payload (incoming UDP tag 0x06). -/
structure RamInfo where
  block : Nat
  free_space : Nat
  deriving DecidableEq, Repr

def RamInfo.parse (buf : List Nat) : Option RamInfo :=
  match buf.get? 0, buf.get? 1, buf.get? 2, buf.get? 3,
        buf.get? 4, buf.get? 5, buf.get? 6, buf.get? 7 with
  | some b0, some b1, some b2, some b3, some b4, some b5, some b6, some b7 =>
    some { block := u32be b0 b1 b2 b3, free_space := u32be b4 b5 b6 b7 }
  | _, _, _, _, _, _, _, _ => none

/-- CAN metrics tag payload (incoming UDP tag 0x0E); utilization keeps the raw
big-endian f32 bit pattern. -/
structure CanMetrics where
  utilization : Nat
  bus_off : Nat
  tx_full : Nat
  rx_errors : Nat
  tx_errors : Nat
  deriving DecidableEq, Repr

def CanMetrics.parse (buf : List Nat) : Option CanMetrics :=
  match buf.get? 0, buf.get? 1, buf.get? 2, buf.get? 3,
        buf.get? 4, buf.get? 5, buf.get? 6, buf.get? 7,
        buf.get? 8, buf.get? 9, buf.get? 10, buf.get? 11,
        buf.get? 12, buf.get? 13 with
  | some b0, some b1, some b2, some b3, some b4, some b5, some b6, some b7,
    some b8, some b9, some b10, some b11, some b12, some b13 =>
    some { utilization := u32be b0 b1 b2 b3
           bus_off := u32be b4 b5 b6 b7
           tx_full := u32be b8 b9 b10 b11
           rx_errors := b12
           tx_errors := b13 }
  | _, _, _, _, _, _, _, _, _, _, _, _, _, _ => none

/-- Outcome of one pass of the tag loop of UdpIncomingStream::next. -/
inductive UdpLoopResult where
  | panicked
  | stop
  | done (pos : Nat)
  deriving DecidableEq, Repr

/-- The tag loop of UdpIncomingStream::next (src/proto/incoming/udp.rs,
lines 51 to 116), embedded byte for byte: sl is the slice taken at the start
of the call, len is the length of the whole buffer (the source compares the
mutated absolute cursor against it), and the mid-loop return None on
pos2 + tagSize < len is the inverted bounds check of the source. The fuel
argument only bounds the recursion; the caller passes len + 1, which is
never exhausted since every iteration advances pos by at least 2. -/
def udpTagLoop (sl : List Nat) (len : Nat) : Nat → Nat → UdpLoopResult
  | 0, _ => UdpLoopResult.stop
  | fuel+1, pos =>
    if pos < len then
      match sl.get? pos with
      | none => UdpLoopResult.panicked
      | some tagSize =>
        match sl.get? (pos+1) with
        | none => UdpLoopResult.panicked
        | some tagId =>
          let pos2 := pos + 2
          if pos2 + tagSize < len then UdpLoopResult.stop
          else
            match slice? sl pos2 (pos2 + tagSize) with
            | none => UdpLoopResult.panicked
            | some payload =>
              let pos3 := pos2 + tagSize
              if tagId == 0x01 then
                if tagSize == 1 then udpTagLoop sl len fuel pos3
                else if tagSize != 9 then UdpLoopResult.panicked
                else match JoystickOutput.parse payload with
                  | none => UdpLoopResult.panicked
                  | some _ => udpTagLoop sl len fuel pos3
              else if tagId == 0x04 then
                match payload.get? 0, payload.get? 1, payload.get? 2, payload.get? 3 with
                | some _, some _, some _, some _ => udpTagLoop sl len fuel pos3
                | _, _, _, _ => UdpLoopResult.panicked
              else if tagId == 0x05 then
                if tagSize != 21 then UdpLoopResult.panicked
                else match CpuInfo.parse payload with
                  | none => UdpLoopResult.panicked
                  | some _ => udpTagLoop sl len fuel pos3
              else if tagId == 0x06 then
                if tagSize != 9 then UdpLoopResult.panicked
                else match RamInfo.parse payload with
                  | none => UdpLoopResult.panicked
                  | some _ => udpTagLoop sl len fuel pos3
              else if tagId == 0x08 then
                if tagSize != 26 then UdpLoopResult.panicked
                else udpTagLoop sl len fuel pos3
              else if tagId == 0x09 then
                if tagSize != 10 then UdpLoopResult.panicked
                else udpTagLoop sl len fuel pos3
              else if tagId == 0x0E then
                if tagSize != 15 then UdpLoopResult.panicked
                else match CanMetrics.parse payload with
                  | none => UdpLoopResult.panicked
                  | some _ => udpTagLoop sl len fuel pos3
              else udpTagLoop sl len fuel pos3
    else UdpLoopResult.done pos

/-- Outcome of one call of the incoming UDP iterator. -/
inductive UdpNextResult where
  | panicked
  | stop
  | yielded (pkt : UdpIncomingPacket) (pos : Nat)
  deriving DecidableEq, Repr

/-- UdpIncomingStream::next from src/proto/incoming/udp.rs. The guard
len - pos is a usize subtraction, so pos above len is a panic; the two
from_bits unwraps panic on unknown bits; the tag loop runs after the 8
static header bytes. -/
def udpNext (buf : List Nat) (pos : Nat) : UdpNextResult :=
  let len := buf.length
  if pos > len then UdpNextResult.panicked
  else if len - pos <= 8 then UdpNextResult.stop
  else
    let sl := buf.drop pos
    match sl.get? 0, sl.get? 1, sl.get? 2, sl.get? 3,
          sl.get? 4, sl.get? 5, sl.get? 6, sl.get? 7 with
    | some b0, some b1, some _b2, some b3, some b4, some b5, some b6, some b7 =>
      match Status.from_bits b3 with
      | none => UdpNextResult.panicked
      | some statusB =>
        match Trace.from_bits b4 with
        | none => UdpNextResult.panicked
        | some traceB =>
          let pkt : UdpIncomingPacket :=
            { seqnum := u16be b0 b1
              status := statusB
              trace := traceB
              batteryNum := b5 + b6
              need_date := b7 == 1 }
          match udpTagLoop sl len (len + 1) (pos + 8) with
          | UdpLoopResult.panicked => UdpNextResult.panicked
          | UdpLoopResult.stop => UdpNextResult.stop
          | UdpLoopResult.done p => UdpNextResult.yielded pkt p
    | _, _, _, _, _, _, _, _ => UdpNextResult.panicked

/-- The independently readable and writable session-state cells owned by Ds
(src/lib.rs). Float-valued cells keep exact representations: can_bus_util
as the raw f32 bit pattern, battery as the numerator over 256. -/
structure DsState where
  status : RobotStatus
  mode : RobotCodeMode
  can_bus_util : Nat
  batteryNum : Nat
  alliance_pos : AlliancePos
  deriving DecidableEq, Repr

/-- The cell values installed by Ds::init. -/
def initDs : DsState :=
  { status := RobotStatus.NoCommunication
    mode := RobotCodeMode.Teleop
    can_bus_util := 0
    batteryNum := 0
    alliance_pos := AlliancePos.Red 1 }

/-- The store performed by the UDP arm of the run loop for one parsed packet
(src/lib.rs, lines 179 to 187): find_status then store status, mode and
battery. A find_status panic is none. -/
def storePkt (s : DsState) (pkt : UdpIncomingPacket) : Option DsState :=
  match find_status pkt.status pkt.trace with
  | none => none
  | some (st, m) =>
    some { s with status := st, mode := m, batteryNum := pkt.batteryNum }

/-- The for loop of the UDP arm of Ds::run: repeatedly call the iterator and
store each packet. Fuel bounds the recursion; buf.length + 1 is never
exhausted since each yielded packet advances the cursor by at least 8. -/
def udpDrain (buf : List Nat) : Nat → Nat → DsState → Option DsState
  | 0, _, s => some s
  | fuel+1, pos, s =>
    match udpNext buf pos with
    | UdpNextResult.panicked => none
    | UdpNextResult.stop => some s
    | UdpNextResult.yielded pkt p =>
      match storePkt s pkt with
      | none => none
      | some s1 => udpDrain buf fuel p s1

/-- Processing of one received UDP buffer by the run loop. -/
def recvUdp (buf : List Nat) (s : DsState) : Option DsState :=
  udpDrain buf (buf.length + 1) 0 s

/-- Continuation byte of a UTF-8 sequence. -/
def utf8Cont (c : Nat) : Bool := 0x80 <= c && c <= 0xBF

/-- Validity of a byte list as UTF-8, with the semantics of the standard
library check behind str::from_utf8 (RFC 3629: no overlong form, no
surrogate, nothing above U+10FFFF). -/
def utf8Valid : List Nat → Bool
  | [] => true
  | b :: rest =>
    if b < 0x80 then utf8Valid rest
    else if b < 0xC2 then false
    else if b < 0xE0 then
      match rest with
      | c1 :: r => utf8Cont c1 && utf8Valid r
      | [] => false
    else if b == 0xE0 then
      match rest with
      | c1 :: c2 :: r => (0xA0 <= c1 && c1 <= 0xBF) && utf8Cont c2 && utf8Valid r
      | _ => false
    else if b == 0xED then
      match rest with
      | c1 :: c2 :: r => (0x80 <= c1 && c1 <= 0x9F) && utf8Cont c2 && utf8Valid r
      | _ => false
    else if b < 0xF0 then
      match rest with
      | c1 :: c2 :: r => utf8Cont c1 && utf8Cont c2 && utf8Valid r
      | _ => false
    else if b == 0xF0 then
      match rest with
      | c1 :: c2 :: c3 :: r =>
        (0x90 <= c1 && c1 <= 0xBF) && utf8Cont c2 && utf8Cont c3 && utf8Valid r
      | _ => false
    else if b < 0xF4 then
      match rest with
      | c1 :: c2 :: c3 :: r => utf8Cont c1 && utf8Cont c2 && utf8Cont c3 && utf8Valid r
      | _ => false
    else if b == 0xF4 then
      match rest with
      | c1 :: c2 :: c3 :: r =>
        (0x80 <= c1 && c1 <= 0x8F) && utf8Cont c2 && utf8Cont c3 && utf8Valid r
      | _ => false
    else false

/-- str::from_utf8 on a byte list: the bytes when valid, none otherwise. -/
def str_from_utf8? (l : List Nat) : Option (List Nat) :=
  if utf8Valid l then some l else none

/-- The degrade-to-empty pattern used by the TCP record constructors:
an invalid string becomes the empty string. -/
def utf8OrEmpty (l : List Nat) : List Nat :=
  match str_from_utf8? l with
  | some s => s
  | none => []

/-- Disable-faults record (incoming TCP tag 0x04). -/
structure DisableFaults where
  comms : Nat
  pwr12v : Nat
  deriving DecidableEq, Repr

def DisableFaults.parse (buf : List Nat) : Option DisableFaults :=
  match buf.get? 0, buf.get? 1, buf.get? 2, buf.get? 3 with
  | some b0, some b1, some b2, some b3 =>
    some { comms := u16be b0 b1, pwr12v := u16be b2 b3 }
  | _, _, _, _ => none

/-- Rail-faults record (incoming TCP tag 0x05). -/
structure RailFaults where
  pwr6v : Nat
  pwr5v : Nat
  pwr3_3v : Nat
  deriving DecidableEq, Repr

def RailFaults.parse (buf : List Nat) : Option RailFaults :=
  match buf.get? 0, buf.get? 1, buf.get? 2, buf.get? 3, buf.get? 4, buf.get? 5 with
  | some b0, some b1, some b2, some b3, some b4, some b5 =>
    some { pwr6v := u16be b0 b1, pwr5v := u16be b2 b3, pwr3_3v := u16be b4 b5 }
  | _, _, _, _, _, _ => none

/-- Version-info record (incoming TCP tag 0x0A); strings are byte lists. -/
structure VersionInfo where
  ty : Nat
  id : Nat
  name : List Nat
  version : List Nat
  deriving DecidableEq, Repr

/-- VersionInfo::parse, including the inclusive slice ranges of the source
(one byte more than the length prefix says) and the degrade-to-empty
handling of invalid UTF-8. -/
def VersionInfo.parse (buf : List Nat) : Option VersionInfo :=
  match buf.get? 0, buf.get? 3, buf.get? 4 with
  | some ty, some id, some name_len =>
    match slice? buf 5 (5 + name_len + 1), buf.get? (6 + name_len) with
    | some nameBytes, some version_len =>
      match slice? buf (7 + name_len) (7 + name_len + version_len + 1) with
      | some versionBytes =>
        some { ty := ty, id := id
               name := utf8OrEmpty nameBytes
               version := utf8OrEmpty versionBytes }
      | none => none
    | _, _ => none
  | _, _, _ => none

/-- Error-message record (incoming TCP tag 0x0B); the f32 timestamp and the
i32 error code are kept as raw big-endian bit patterns. -/
structure ErrorMessage where
  timestamp : Nat
  seqnum : Nat
  error_code : Nat
  flags : Nat
  details : List Nat
  location : List Nat
  call_stack : List Nat
  deriving DecidableEq, Repr

/-- ErrorMessage::parse; the flags byte falls back to empty on unknown bits
(the source uses if let on from_bits), the three strings degrade to empty
on invalid UTF-8. -/
def ErrorMessage.parse (buf : List Nat) : Option ErrorMessage :=
  match buf.get? 0, buf.get? 1, buf.get? 2, buf.get? 3, buf.get? 4, buf.get? 5,
        buf.get? 8, buf.get? 9, buf.get? 10, buf.get? 11, buf.get? 12,
        buf.get? 13, buf.get? 14 with
  | some b0, some b1, some b2, some b3, some s0, some s1,
    some e0, some e1, some e2, some e3, some fl, some d0, some d1 =>
    let details_len := u16be d0 d1
    match slice? buf 15 (15 + details_len),
          buf.get? (15 + details_len), buf.get? (16 + details_len) with
    | some detailsBytes, some l0, some l1 =>
      let location_len := u16be l0 l1
      match slice? buf (17 + details_len) (17 + details_len + location_len),
            buf.get? (17 + details_len + location_len),
            buf.get? (18 + details_len + location_len) with
      | some locationBytes, some c0, some c1 =>
        let call_stack_len := u16be c0 c1
        match slice? buf (19 + details_len + location_len)
            (19 + details_len + location_len + call_stack_len) with
        | some callStackBytes =>
          some { timestamp := u32be b0 b1 b2 b3
                 seqnum := u16be s0 s1
                 error_code := u32be e0 e1 e2 e3
                 flags := if fl &&& 0x03 == fl then fl else 0
                 details := utf8OrEmpty detailsBytes
                 location := utf8OrEmpty locationBytes
                 call_stack := utf8OrEmpty callStackBytes }
        | none => none
      | _, _, _ => none
    | _, _, _ => none
  | _, _, _, _, _, _, _, _, _, _, _, _, _ => none

/-- Stdout record (incoming TCP tag 0x0C). -/
structure Stdout where
  timestamp : Nat
  seqnum : Nat
  message : List Nat
  deriving DecidableEq, Repr

/-- Stdout::parse; the message is the remainder of the payload, degrading to
empty on invalid UTF-8. -/
def Stdout.parse (buf : List Nat) : Option Stdout :=
  match buf.get? 0, buf.get? 1, buf.get? 2, buf.get? 3,
        buf.get? 4, buf.get? 5, slice? buf 6 buf.length with
  | some b0, some b1, some b2, some b3, some s0, some s1, some rest =>
    some { timestamp := u32be b0 b1 b2 b3
           seqnum := u16be s0 s1
           message := utf8OrEmpty rest }
  | _, _, _, _, _, _, _ => none

/-- The typed incoming TCP tag records, from src/proto/incoming/tcp.rs. -/
inductive TcpIncomingTag where
  | RadioEvent (message : List Nat)
  | UsageReport
  | DisableFaults (t : DisableFaults)
  | RailFaults (t : RailFaults)
  | VersionInfo (t : VersionInfo)
  | ErrorMessage (t : ErrorMessage)
  | Stdout (t : Stdout)
  | Dummy
  deriving DecidableEq, Repr

/-- Outcome of one call of the incoming TCP tag iterator. -/
inductive TcpNextResult where
  | panicked
  | stop
  | yielded (tag : TcpIncomingTag) (pos : Nat)
  deriving DecidableEq, Repr

/-- TcpTagStream::next from src/proto/incoming/tcp.rs. A zero length or an
unrecognized id ends the stream; the radio-event arm unwraps the UTF-8
decode, the fixed-size arms assert their declared sizes; the payload slice
is taken at the advanced absolute cursor inside the slice made at entry,
exactly as the source does. -/
def tcpNext (buf : List Nat) (pos : Nat) : TcpNextResult :=
  let len := buf.length
  if pos > len then TcpNextResult.panicked
  else if len - pos < 2 then TcpNextResult.stop
  else
    let sl := buf.drop pos
    match sl.get? 0, sl.get? 1 with
    | some s0, some s1 =>
      let size := u16be s0 s1
      if size > 0 then
        match sl.get? 2 with
        | none => TcpNextResult.panicked
        | some id =>
          match slice? sl (pos + 3) sl.length with
          | none => TcpNextResult.panicked
          | some payload =>
            let pos3 := pos + 3
            if id == 0x00 then
              match str_from_utf8? payload with
              | none => TcpNextResult.panicked
              | some msg => TcpNextResult.yielded (TcpIncomingTag.RadioEvent msg) pos3
            else if id == 0x01 then
              TcpNextResult.yielded TcpIncomingTag.UsageReport pos3
            else if id == 0x04 then
              if size != 5 then TcpNextResult.panicked
              else match DisableFaults.parse payload with
                | none => TcpNextResult.panicked
                | some t => TcpNextResult.yielded (TcpIncomingTag.DisableFaults t) pos3
            else if id == 0x05 then
              if size != 7 then TcpNextResult.panicked
              else match RailFaults.parse payload with
                | none => TcpNextResult.panicked
                | some t => TcpNextResult.yielded (TcpIncomingTag.RailFaults t) pos3
            else if id == 0x0A then
              if size < 6 then TcpNextResult.panicked
              else match VersionInfo.parse payload with
                | none => TcpNextResult.panicked
                | some t => TcpNextResult.yielded (TcpIncomingTag.VersionInfo t) pos3
            else if id == 0x0B then
              if size < 20 then TcpNextResult.panicked
              else match ErrorMessage.parse payload with
                | none => TcpNextResult.panicked
                | some t => TcpNextResult.yielded (TcpIncomingTag.ErrorMessage t) pos3
            else if id == 0x0C then
              if size < 7 then TcpNextResult.panicked
              else match Stdout.parse payload with
                | none => TcpNextResult.panicked
                | some t => TcpNextResult.yielded (TcpIncomingTag.Stdout t) pos3
            else if id == 0x0D then
              if payload == [0x00, 0x00, 0x04, 0x04, 0x04, 0x04] then
                TcpNextResult.yielded TcpIncomingTag.Dummy pos3
              else TcpNextResult.panicked
            else TcpNextResult.stop
      else TcpNextResult.stop
    | _, _ => TcpNextResult.panicked

/-- The for loop of the TCP arm of Ds::run. The handlers of the yielded tags
only emit log events and touch no session-state cell, so only panic or
clean completion is recorded. Fuel bounds the recursion; buf.length + 1 is
never exhausted since each yielded tag advances the cursor by 3. -/
def tcpDrainOk (buf : List Nat) : Nat → Nat → Bool
  | 0, _ => true
  | fuel+1, pos =>
    match tcpNext buf pos with
    | TcpNextResult.panicked => false
    | TcpNextResult.stop => true
    | TcpNextResult.yielded _ p => tcpDrainOk buf fuel p

/-- Processing of one received TCP buffer by the run loop. -/
def recvTcp (buf : List Nat) (s : DsState) : Option DsState :=
  if tcpDrainOk buf (buf.length + 1) 0 then some s else none

/-- The session operations of Ds (src/lib.rs) that touch session state:
the command methods and the two receive arms of the run loop. -/
inductive Op where
  | enable
  | disable
  | estop
  | rebootRio
  | restartCode
  | recvUdpOp (buf : List Nat)
  | recvTcpOp (buf : List Nat)
  deriving DecidableEq, Repr

/-- Whether an operation is datagram or stream ingestion (a receive arm of
the run loop) rather than a command method. -/
def Op.isIngest : Op → Bool
  | Op.recvUdpOp _ => true
  | Op.recvTcpOp _ => true
  | _ => false

/-- Effect of one session operation on the session-state cells, from
src/lib.rs. The command methods enable, disable and estop store the
corresponding lifecycle state and then send a control packet; building and
writing that packet asserts the alliance station through to_pos, so an
invalid station is a panic (none). reboot_rio and restart_code build and
send a packet without storing. The receive operations run the codecs. -/
def applyOp (op : Op) (s : DsState) : Option DsState :=
  match op with
  | Op.enable =>
    let s1 := { s with status := RobotStatus.Enabled }
    if (AlliancePos.to_pos s1.alliance_pos).isSome then some s1 else none
  | Op.disable =>
    let s1 := { s with status := RobotStatus.Disabled }
    if (AlliancePos.to_pos s1.alliance_pos).isSome then some s1 else none
  | Op.estop =>
    let s1 := { s with status := RobotStatus.EStopped }
    if (AlliancePos.to_pos s1.alliance_pos).isSome then some s1 else none
  | Op.rebootRio =>
    if (AlliancePos.to_pos s.alliance_pos).isSome then some s else none
  | Op.restartCode =>
    if (AlliancePos.to_pos s.alliance_pos).isSome then some s else none
  | Op.recvUdpOp buf => recvUdp buf s
  | Op.recvTcpOp buf => recvTcp buf s

/-- Claim formalization: no operation other than datagram ingestion writes
the lifecycle-state field. -/
def onlyIngestWritesStatus : Prop :=
  ∀ (s : DsState) (op : Op) (s1 : DsState), Op.isIngest op = false →
    applyOp op s = some s1 → s1.status = s.status

/-- Fixed UDP datagram used to exercise the CAN-metrics tag: 8 header bytes,
then a tag block of declared size 15 with id 0x0E whose first four payload
bytes 42 16 00 00 are the big-endian f32 bit pattern of 37.5. -/
def canBuf : List Nat :=
  [0, 0, 0, 0, 0, 0, 0, 0] ++ [0x0F, 0x0E] ++ [0x42, 0x16, 0x00, 0x00] ++
  [0, 0, 0, 0, 0, 0, 0, 0, 0, 0, 0]

/- ------------------------------------------------------------------ -/
/- Helper lemmas -/
/- ------------------------------------------------------------------ -/

lemma flagContains_two_pow (n k : Nat) :
    flagContains n (2 ^ k) = n.testBit k := by
  unfold flagContains
  rw [Nat.and_two_pow]
  cases h : n.testBit k
  · have h2 : (0 : Nat) ≠ 2 ^ k := (pow_pos (by norm_num) k).ne
    simp [h2]
  · simp

lemma has_robot_code_testBit (n : Nat) :
    Trace.has_robot_code n = n.testBit 5 := by
  have h32 : Trace.ROBOT_CODE = 2 ^ 5 := by norm_num [Trace.ROBOT_CODE]
  rw [Trace.has_robot_code, h32, flagContains_two_pow]

lemma is_estopped_testBit (n : Nat) :
    Status.is_estopped n = n.testBit 7 := by
  have h : Status.ESTOP = 2 ^ 7 := by norm_num [Status.ESTOP]
  rw [Status.is_estopped, h, flagContains_two_pow]

lemma is_browned_out_testBit (n : Nat) :
    Status.is_browned_out n = n.testBit 4 := by
  have h : Status.BROWNOUT = 2 ^ 4 := by norm_num [Status.BROWNOUT]
  rw [Status.is_browned_out, h, flagContains_two_pow]

lemma is_enabled_testBit (n : Nat) :
    Status.is_enabled n = n.testBit 2 := by
  have h : Status.ENABLED = 2 ^ 2 := by norm_num [Status.ENABLED]
  rw [Status.is_enabled, h, flagContains_two_pow]

lemma udpDrain_can_bus_util (buf : List Nat) :
    ∀ (fuel pos : Nat) (s s1 : DsState),
      udpDrain buf fuel pos s = some s1 → s1.can_bus_util = s.can_bus_util := by
  intro fuel
  induction fuel with
  | zero =>
    intro pos s s1 h
    simp [udpDrain] at h
    simp [h]
  | succ n ih =>
    intro pos s s1 h
    rw [udpDrain] at h
    split at h
    · cases h
    · cases h; rfl
    · split at h
      · cases h
      · rename_i s2 hs
        have h2 := ih _ s2 s1 h
        have h3 : s2.can_bus_util = s.can_bus_util := by
          unfold storePkt at hs
          split at hs
          · cases hs
          · cases hs; rfl
        rw [h2, h3]

/- ------------------------------------------------------------------ -/
/- Claim theorems -/
/- ------------------------------------------------------------------ -/

/-- C1: whenever derivation succeeds, find_status follows the fixed
precedence on the lifecycle state: a trace byte without the robot-code bit
(bit 5) gives NoRobotCode regardless of every other bit; otherwise the
e-stop bit (bit 7) gives EStopped even when the brownout bit is also set;
otherwise the brownout bit (bit 4) gives BrownedOut; otherwise the enabled
bit (bit 2) decides between Enabled and Disabled. Uniqueness of the
returned pair is inherent in find_status being a function. -/
theorem find_status_precedence (status trace : Nat) (s : RobotStatus)
    (m : RobotCodeMode) (h : find_status status trace = some (s, m)) :
    (trace.testBit 5 = false → s = RobotStatus.NoRobotCode) ∧
    (trace.testBit 5 = true → status.testBit 7 = true → s = RobotStatus.EStopped) ∧
    (trace.testBit 5 = true → status.testBit 7 = false → status.testBit 4 = true →
      s = RobotStatus.BrownedOut) ∧
    (trace.testBit 5 = true → status.testBit 7 = false → status.testBit 4 = false →
      s = if status.testBit 2 then RobotStatus.Enabled else RobotStatus.Disabled) := by
  have ht : Status.is_in_teleop status = true := by
    simp [Status.is_in_teleop, Status.TELEOP, flagContains]
  rw [find_status] at h
  split at h
  · cases h
  · simp only [ht, if_true] at h
    simp only [has_robot_code_testBit, is_estopped_testBit, is_browned_out_testBit,
      is_enabled_testBit] at h
    split_ifs at h <;> simp_all

/-- Witness for C1 at status byte 0x00 and trace byte 0x20: derivation
succeeds with the Disabled state and the precedence facts hold there. -/
theorem find_status_precedence_witness :
    ((0x20 : Nat).testBit 5 = false → RobotStatus.Disabled = RobotStatus.NoRobotCode) ∧
    ((0x20 : Nat).testBit 5 = true → (0 : Nat).testBit 7 = true →
      RobotStatus.Disabled = RobotStatus.EStopped) ∧
    ((0x20 : Nat).testBit 5 = true → (0 : Nat).testBit 7 = false →
      (0 : Nat).testBit 4 = true → RobotStatus.Disabled = RobotStatus.BrownedOut) ∧
    ((0x20 : Nat).testBit 5 = true → (0 : Nat).testBit 7 = false →
      (0 : Nat).testBit 4 = false → RobotStatus.Disabled =
        if (0 : Nat).testBit 2 then RobotStatus.Enabled else RobotStatus.Disabled) :=
  find_status_precedence 0 0x20 RobotStatus.Disabled RobotCodeMode.Teleop (by decide)

/-- C2 (code bug): the two-bit mode field of a status byte encodes teleop as
00, autonomous as 10 and test as 01, but the exclusivity assertion of
find_status rejects the valid autonomous and test encodings (because the
teleop flag is the empty bit set, which every byte contains) and accepts the
invalid both-bits pattern 11, for which it reports teleop. -/
theorem find_status_mode_bits_bug :
    find_status 0x02 0x20 = none ∧
    find_status 0x01 0x20 = none ∧
    find_status 0x03 0x20 = some (RobotStatus.Disabled, RobotCodeMode.Teleop) := by
  decide

/-- C3 (code bug): with a tag block whose declared length 5 overruns the
two remaining bytes, the incoming UDP parser panics on an out-of-range
slice instead of stopping cleanly; and with a tag block that fits with data
left after it, the parser stops instead of continuing, because the bounds
comparison is inverted. -/
theorem udp_tag_overrun_panics :
    udpNext [0, 0, 0, 0, 0, 0, 0, 0, 5, 1] 0 = UdpNextResult.panicked ∧
    udpNext [0, 0, 0, 0, 0, 0, 0, 0, 0, 9, 0, 0] 0 = UdpNextResult.stop := by
  decide

/-- C4 (code bug): a buffer of exactly 9 bytes makes the incoming UDP parser
panic reading the tag id past the end of the buffer instead of yielding one
datagram; buffers of 8 bytes or fewer do yield nothing, as claimed. -/
theorem udp_nine_byte_header_panics :
    udpNext [0, 0, 0, 0, 0, 0, 0, 0, 0] 0 = UdpNextResult.panicked ∧
    (∀ buf : List Nat, buf.length ≤ 8 → udpNext buf 0 = UdpNextResult.stop) := by
  refine ⟨by decide, ?_⟩
  intro buf h
  rw [udpNext]
  simp [Nat.sub_zero, h]

/-- Witness for the quantified half of C4 at the empty buffer. -/
theorem udp_nine_byte_header_panics_witness :
    ([] : List Nat).length ≤ 8 ∧ udpNext [] 0 = UdpNextResult.stop :=
  ⟨by decide, udp_nine_byte_header_panics.2 [] (by decide)⟩

/-- C5 (code bug): to_pos maps every valid Blue station to byte 0 (the
source subtracts 4 with saturation from a station that is at most 3), so
Blue station 2 encodes to 0 and not to the claimed 3 + (2-1) = 4; Red
stations encode to station - 1 and out-of-range stations fail fast. -/
theorem alliance_blue_encoding_bug :
    AlliancePos.to_pos (AlliancePos.Blue 2) = some 0 ∧
    AlliancePos.to_pos (AlliancePos.Blue 1) = some 0 ∧
    AlliancePos.to_pos (AlliancePos.Blue 3) = some 0 ∧
    AlliancePos.to_pos (AlliancePos.Red 2) = some 1 ∧
    AlliancePos.to_pos (AlliancePos.Red 0) = none ∧
    AlliancePos.to_pos (AlliancePos.Blue 4) = none := by
  decide

/-- C6: the control byte built for a lifecycle state and mode has the ESTOP
bit (bit 7) exactly for EStopped, the ENABLED bit (bit 2) exactly for
Enabled and for no state together with ESTOP, always carries the mode in
its low two bits, and two states producing the same byte agree on all
control-relevant information (so only the ESTOP class, the ENABLED class
and the mode survive the wire, with Disabled and NoCommunication
indistinguishable by design). -/
theorem control_byte_roundtrip :
    ∀ (st : RobotStatus) (m : RobotCodeMode),
      ((controlOf st m).testBit 7 = true ↔ st = RobotStatus.EStopped) ∧
      ((controlOf st m).testBit 2 = true ↔ st = RobotStatus.Enabled) ∧
      (st = RobotStatus.EStopped → (controlOf st m).testBit 2 = false) ∧
      decodeMode (controlOf st m) = some m ∧
      (∀ (st2 : RobotStatus) (m2 : RobotCodeMode),
        controlOf st2 m2 = controlOf st m →
          m2 = m ∧ (st2 = RobotStatus.EStopped ↔ st = RobotStatus.EStopped) ∧
          (st2 = RobotStatus.Enabled ↔ st = RobotStatus.Enabled)) := by
  decide

/-- Witness for C6, discharging the inner round-trip hypothesis at the
Enabled and Autonomous encoding. -/
theorem control_byte_roundtrip_witness :
    RobotCodeMode.Autonomous = RobotCodeMode.Autonomous ∧
    (RobotStatus.Enabled = RobotStatus.EStopped ↔
      RobotStatus.Enabled = RobotStatus.EStopped) ∧
    (RobotStatus.Enabled = RobotStatus.Enabled ↔
      RobotStatus.Enabled = RobotStatus.Enabled) :=
  (control_byte_roundtrip RobotStatus.Enabled RobotCodeMode.Autonomous).2.2.2.2
    RobotStatus.Enabled RobotCodeMode.Autonomous rfl

/-- C7 (code bug): the button packing ors each button in and then shifts
left, so in every group of 8 the first button is shifted out of the byte,
button k of the group lands on bit 8 - k, and bit 0 is always clear: a
first-button-only group packs to 0x00 and not to the claimed 0x80, while an
all-but-first group packs to 0xFE. Trailing groups of fewer than 8 buttons
are dropped, as the claim says. -/
theorem pack_buttons_bug :
    packButtons [true, false, false, false, false, false, false, false] = [0x00] ∧
    packButtons [false, true, true, true, true, true, true, true] = [0xFE] ∧
    packButtons [true, true, true, true, true, true, true, true, true] = [0xFE] := by
  decide

/-- C8 (code bug): a radio-event tag whose message is not valid UTF-8 makes
the TCP tag parser panic through the unwrap in the radio-event arm instead
of degrading the field to the empty string, while a valid message yields
the record; the stdout arm does degrade an invalid message to the empty
string as claimed. -/
theorem radio_event_invalid_utf8_panics :
    tcpNext [0x00, 0x02, 0x00, 0xFF] 0 = TcpNextResult.panicked ∧
    tcpNext [0x00, 0x02, 0x00, 0x41] 0 =
      TcpNextResult.yielded (TcpIncomingTag.RadioEvent [0x41]) 3 ∧
    tcpNext [0x00, 0x08, 0x0C, 0, 0, 0, 0, 0, 0, 0xFF] 0 =
      TcpNextResult.yielded
        (TcpIncomingTag.Stdout { timestamp := 0, seqnum := 0, message := [] }) 3 := by
  decide

/-- C9 (code bug): the CAN-metrics arm of the UDP tag loop parses the tag
and discards it without invoking its handler, so processing a datagram
whose CAN-metrics tag carries the f32 bit pattern 0x42160000 of 37.5 leaves
the can-bus-utilization cell at its prior value 0 instead of storing 37.5;
in general no UDP ingestion ever changes that cell. -/
theorem can_metrics_not_stored :
    recvUdp canBuf initDs =
      some { status := RobotStatus.NoRobotCode, mode := RobotCodeMode.Teleop,
             can_bus_util := 0, batteryNum := 0,
             alliance_pos := AlliancePos.Red 1 } ∧
    u32be 0x42 0x16 0x00 0x00 = 0x42160000 ∧ (0 : Nat) ≠ 0x42160000 ∧
    (∀ (buf : List Nat) (s s1 : DsState),
      recvUdp buf s = some s1 → s1.can_bus_util = s.can_bus_util) := by
  refine ⟨by decide, by decide, by decide, ?_⟩
  intro buf s s1 h
  exact udpDrain_can_bus_util buf (buf.length + 1) 0 s s1 h

/-- Witness for the quantified half of C9 at the CAN-metrics datagram. -/
theorem can_metrics_not_stored_witness :
    recvUdp canBuf initDs =
      some { status := RobotStatus.NoRobotCode, mode := RobotCodeMode.Teleop,
             can_bus_util := 0, batteryNum := 0,
             alliance_pos := AlliancePos.Red 1 } ∧
    ({ status := RobotStatus.NoRobotCode, mode := RobotCodeMode.Teleop,
       can_bus_util := 0, batteryNum := 0,
       alliance_pos := AlliancePos.Red 1 } : DsState).can_bus_util =
      initDs.can_bus_util :=
  ⟨by decide, can_metrics_not_stored.2.2.2 canBuf initDs _ (by decide)⟩

lemma udpDrain_status_provenance (buf : List Nat) :
    ∀ (fuel pos : Nat) (s s1 : DsState), udpDrain buf fuel pos s = some s1 →
      s1.status = s.status ∨
      ∃ (pos0 : Nat) (pkt : UdpIncomingPacket) (pos1 : Nat) (m : RobotCodeMode),
        udpNext buf pos0 = UdpNextResult.yielded pkt pos1 ∧
        find_status pkt.status pkt.trace = some (s1.status, m) := by
  intro fuel
  induction fuel with
  | zero =>
    intro pos s s1 h
    simp [udpDrain] at h
    left
    rw [h]
  | succ n ih =>
    intro pos s s1 h
    cases hn : udpNext buf pos with
    | panicked => simp [udpDrain, hn] at h
    | stop =>
      simp [udpDrain, hn] at h
      left
      rw [h]
    | yielded pkt pos1 =>
      simp only [udpDrain, hn] at h
      cases hs : storePkt s pkt with
      | none => rw [hs] at h; simp at h
      | some s2 =>
        rw [hs] at h
        simp only at h
        have h2 := ih pos1 s2 s1 h
        cases hf : find_status pkt.status pkt.trace with
        | none => rw [storePkt, hf] at hs; cases hs
        | some v =>
          obtain ⟨st, m⟩ := v
          rw [storePkt, hf] at hs
          simp only [Option.some.injEq] at hs
          have hstat : s2.status = st := by rw [← hs]
          cases h2 with
          | inl hEq =>
            right
            exact ⟨pos, pkt, pos1, m, hn, by rw [hEq, hstat]; exact hf⟩
          | inr hEx => right; exact hEx

/-- C10 counterexample: the enable command, which is not datagram ingestion,
writes the lifecycle-state field (it stores Enabled before sending the
control packet), so ingestion is not the only writer. -/
theorem enable_writes_status : ¬ onlyIngestWritesStatus := by
  intro hcl
  have h := hcl initDs Op.enable { initDs with status := RobotStatus.Enabled }
    (by decide) (by decide)
  exact absurd h (by decide)

/-- C10 amended: the lifecycle-state cell starts at the design default
NoCommunication and is written by exactly two kinds of operation: datagram
ingestion, which stores a value derived through find_status from a packet
yielded by the incoming UDP parser, and the command methods enable, disable
and estop, which store Enabled, Disabled and EStopped respectively; every
other operation leaves the cell unchanged. -/
theorem status_write_provenance :
    initDs.status = RobotStatus.NoCommunication ∧
    ∀ (s : DsState) (op : Op) (s1 : DsState), applyOp op s = some s1 →
      s1.status = s.status ∨
      (op = Op.enable ∧ s1.status = RobotStatus.Enabled) ∨
      (op = Op.disable ∧ s1.status = RobotStatus.Disabled) ∨
      (op = Op.estop ∧ s1.status = RobotStatus.EStopped) ∨
      (∃ (buf : List Nat) (pos0 : Nat) (pkt : UdpIncomingPacket) (pos1 : Nat)
          (m : RobotCodeMode),
        op = Op.recvUdpOp buf ∧
        udpNext buf pos0 = UdpNextResult.yielded pkt pos1 ∧
        find_status pkt.status pkt.trace = some (s1.status, m)) := by
  refine ⟨rfl, ?_⟩
  intro s op s1 h
  cases op with
  | enable =>
    simp only [applyOp] at h
    split at h
    · cases h
      right; left
      exact ⟨rfl, rfl⟩
    · cases h
  | disable =>
    simp only [applyOp] at h
    split at h
    · cases h
      right; right; left
      exact ⟨rfl, rfl⟩
    · cases h
  | estop =>
    simp only [applyOp] at h
    split at h
    · cases h
      right; right; right; left
      exact ⟨rfl, rfl⟩
    · cases h
  | rebootRio =>
    simp only [applyOp] at h
    split at h
    · cases h; left; rfl
    · cases h
  | restartCode =>
    simp only [applyOp] at h
    split at h
    · cases h; left; rfl
    · cases h
  | recvUdpOp buf =>
    simp only [applyOp, recvUdp] at h
    have h2 := udpDrain_status_provenance buf (buf.length + 1) 0 s s1 h
    cases h2 with
    | inl he => left; exact he
    | inr hex =>
      right; right; right; right
      obtain ⟨pos0, pkt, pos1, m, h1, h2⟩ := hex
      exact ⟨buf, pos0, pkt, pos1, m, rfl, h1, h2⟩
  | recvTcpOp buf =>
    simp only [applyOp, recvTcp] at h
    split at h
    · cases h; left; rfl
    · cases h

/-- Witness for the amended C10 at the enable command from the initial
state. -/
theorem status_write_provenance_witness :
    ({ initDs with status := RobotStatus.Enabled } : DsState).status =
      initDs.status ∨
    (Op.enable = Op.enable ∧
      ({ initDs with status := RobotStatus.Enabled } : DsState).status =
        RobotStatus.Enabled) ∨
    (Op.enable = Op.disable ∧
      ({ initDs with status := RobotStatus.Enabled } : DsState).status =
        RobotStatus.Disabled) ∨
    (Op.enable = Op.estop ∧
      ({ initDs with status := RobotStatus.Enabled } : DsState).status =
        RobotStatus.EStopped) ∨
    (∃ (buf : List Nat) (pos0 : Nat) (pkt : UdpIncomingPacket) (pos1 : Nat)
        (m : RobotCodeMode),
      Op.enable = Op.recvUdpOp buf ∧
      udpNext buf pos0 = UdpNextResult.yielded pkt pos1 ∧
      find_status pkt.status pkt.trace =
        some (({ initDs with status := RobotStatus.Enabled } : DsState).status, m)) :=
  status_write_provenance.2 initDs Op.enable
    { initDs with status := RobotStatus.Enabled } (by decide)
